import Mathlib

/-!
Shallow embedding of the time-series analytics module of the
Portfolio-Analytics dashboard (`src/frontend.py`): the period windower
`get_stock_data_for_period` and the risk-statistics engine
`calculate_stock_stats`.

Dates are modelled as integers (days since an arbitrary epoch); the
`timedelta(days=365)` subtraction becomes integer subtraction by 365.
Adjusted close prices are modelled as exact rationals.  Python `None` is
modelled by `Option.none`.  `pd.DataFrame.sort_values("Date")` is modelled
by insertion sort on the date field; since a `PriceSeries` has unique dates
(data-model invariant), any comparison sort yields the same list.  The one
place where an IEEE NaN is observable on well-formed (finite, nonzero)
prices is the sample standard deviation of a single return, which gets its
own constructor in `Vol`.
-/

attribute [local semireducible] Rat.mul Rat.add Rat.sub Rat.inv

/-- One row of the `stock_data` dataframe: ticker symbol, date and
adjusted close (columns `Ticker`, `Date`, `Adj Close`). -/
structure Row where
  ticker : String
  date : ℤ
  adjClose : ℚ
  deriving DecidableEq, Repr, Inhabited

/-- Chronological comparison used by `sort_values("Date")`. -/
def byDate (a b : Row) : Prop := a.date ≤ b.date

instance : DecidableRel byDate := fun a b => inferInstanceAs (Decidable (a.date ≤ b.date))

instance : IsTotal Row byDate := ⟨fun a b => Int.le_total a.date b.date⟩

instance : IsTrans Row byDate := ⟨fun _ _ _ h h' => le_trans h h'⟩

/-- Lines 27-47 of frontend.py, `get_stock_data_for_period`: restrict the
dataframe to one ticker, keep the rows with `period_start ≤ Date ≤ period_end`,
return `(None, None)` if none remain, else the date-sorted rows together with
`((end_price / start_price) - 1) * 100` taken from the first and last sorted
rows.  (The `else: pct_change = 0` branch at line 44-45 is unreachable: the
guard at line 35 already returned on an empty window.) -/
def get_stock_data_for_period (df : List Row) (ticker : String)
    (period_start period_end : ℤ) : Option (List Row) × Option ℚ :=
  let ticker_data := df.filter fun r => decide (r.ticker = ticker)
  let period_data := ticker_data.filter fun r =>
    decide (period_start ≤ r.date) && decide (r.date ≤ period_end)
  if period_data.isEmpty then (none, none)
  else
    let sorted := List.insertionSort byDate period_data
    let start_price := (sorted.headD default).adjClose
    let end_price := (sorted.getLastD default).adjClose
    (some sorted, some ((end_price / start_price - 1) * 100))

/-- Lines 52-54 of frontend.py: the one-ticker dataframe sorted by date. -/
def tickerSorted (df : List Row) (ticker : String) : List Row :=
  List.insertionSort byDate (df.filter fun r => decide (r.ticker = ticker))

/-- Line 56 of frontend.py: the rows at or before the reference date
(`current_idx`), in chronological order. -/
def currentRows (df : List Row) (ticker : String) (current_date : ℤ) : List Row :=
  (tickerSorted df ticker).filter fun r => decide (r.date ≤ current_date)

/-- Lines 63-64 and 78 of frontend.py: the trailing-year rows.  The code
computes this same filter twice (`one_year_data` and `fifty_two_weeks`); both
keep every row with `Date ≥ current_date - 365 days` and impose NO upper
bound, so rows dated after the reference date are kept. -/
def trailingYearWindow (df : List Row) (ticker : String) (current_date : ℤ) : List Row :=
  (tickerSorted df ticker).filter fun r => decide (current_date - 365 ≤ r.date)

/-- Trailing-year window as the specification's data-model invariant words it:
the 365-calendar-day window ending at the reference date inclusive,
`current_date - 365 ≤ Date ≤ current_date`.  Stated only to compare against
`trailingYearWindow`, the window the code actually uses. -/
def specTrailingWindow (df : List Row) (ticker : String) (current_date : ℤ) : List Row :=
  (tickerSorted df ticker).filter fun r =>
    decide (current_date - 365 ≤ r.date) && decide (r.date ≤ current_date)

/-- Consecutive period-over-period simple returns, `Series.pct_change().dropna()`
on a NaN-free series: on prices `[p₀, p₁, …]` produce `[p₁/p₀ - 1, p₂/p₁ - 1, …]`
(`dropna` removes exactly the leading NaN produced by the shift). -/
def pctChanges : List ℚ → List ℚ
  | [] => []
  | [_] => []
  | a :: b :: rest => (b / a - 1) :: pctChanges (b :: rest)

/-- Arithmetic mean of a list of rationals. -/
def listMean (l : List ℚ) : ℚ := l.sum / l.length

/-- Sample variance with the N−1 denominator (the square of pandas
`Series.std` with its default `ddof = 1`). -/
def sampleVar (l : List ℚ) : ℚ :=
  ((l.map fun x => (x - listMean l) * (x - listMean l)).sum) / ((l.length : ℚ) - 1)

/-- Pandas `Series.std()` with default `ddof = 1`, represented by its square:
`some v` stands for the real value √v, and `none` stands for the IEEE NaN that
pandas returns on a series of fewer than two elements (0/0 in the ddof
divisor). -/
def sampleStdSq (l : List ℚ) : Option ℚ :=
  if l.length < 2 then none else some (sampleVar l)

/-- Result of the annualized-volatility step.  `absent` is Python `None`
(no returns at all); `nan` is the IEEE NaN that `std(ddof=1)` yields on a
single return; `val sq` carries the square of the finite float the code
computes, so the volatility itself is the nonnegative square root of `sq`. -/
inductive Vol where
  | absent
  | nan
  | val (sq : ℚ)
  deriving DecidableEq, Repr

/-- Lines 71-75 of frontend.py: `volatility = returns.std() * np.sqrt(252) * 100`
when at least one return exists, else `None`.  A `Vol.val sq` carries the square
of that product: `sq = 252 * 10000 * sampleVar returns`. -/
def volatilityOf (returns : List ℚ) : Vol :=
  if returns.length > 0 then
    match sampleStdSq returns with
    | none => Vol.nan
    | some v => Vol.val (252 * 10000 * v)
  else Vol.absent

/-- Lines 87-92 of frontend.py: `if week_high and week_low:` — Python truthiness,
so the distances are computed only when both extremes are non-None AND nonzero;
otherwise both are `None`. -/
def distances (current_price : ℚ) : Option ℚ → Option ℚ → Option ℚ × Option ℚ
  | some h, some l =>
    if h ≠ 0 ∧ l ≠ 0 then
      (some ((current_price / h - 1) * 100), some ((current_price / l - 1) * 100))
    else (none, none)
  | _, _ => (none, none)

/-- Return value of `calculate_stock_stats` (the dict built at lines 94-102).
The whole record is wrapped in `Option` by the caller-facing function, the
`none` case standing for the empty dict `{}` returned at line 58, in which
every key lookup yields `None`. -/
structure RiskStats where
  current_price : ℚ
  one_year_return : Option ℚ
  volatility : Vol
  week_high : Option ℚ
  week_low : Option ℚ
  vs_52w_high : Option ℚ
  vs_52w_low : Option ℚ
  deriving DecidableEq, Repr

/-- Lines 50-102 of frontend.py, `calculate_stock_stats`: anchor on the last
row dated at or before `current_date` (`None` here models the empty dict `{}`
returned at line 58, in which every lookup is `None`), then compute each
statistic independently from the sorted one-ticker data.  The window
expressions are spelled out per field because the code itself recomputes the
trailing-year filter for each step (`one_year_data` at line 64,
`fifty_two_weeks` at line 78), each step guarded independently. -/
def calculate_stock_stats (df : List Row) (ticker : String) (current_date : ℤ) :
    Option RiskStats :=
  (currentRows df ticker current_date).getLast?.map fun anchor =>
    { current_price := anchor.adjClose
      one_year_return := (trailingYearWindow df ticker current_date).head?.map fun f =>
        (anchor.adjClose / f.adjClose - 1) * 100
      volatility := volatilityOf (pctChanges ((tickerSorted df ticker).map Row.adjClose))
      week_high := ((trailingYearWindow df ticker current_date).map Row.adjClose).max?
      week_low := ((trailingYearWindow df ticker current_date).map Row.adjClose).min?
      vs_52w_high := (distances anchor.adjClose
          (((trailingYearWindow df ticker current_date).map Row.adjClose).max?)
          (((trailingYearWindow df ticker current_date).map Row.adjClose).min?)).1
      vs_52w_low := (distances anchor.adjClose
          (((trailingYearWindow df ticker current_date).map Row.adjClose).max?)
          (((trailingYearWindow df ticker current_date).map Row.adjClose).min?)).2 }

/-! Helper lemmas about the embedding, shared by the claim theorems below. -/

theorem mem_tickerSorted {df : List Row} {ticker : String} {r : Row} :
    r ∈ tickerSorted df ticker ↔ r ∈ df ∧ r.ticker = ticker := by
  unfold tickerSorted
  rw [List.mem_insertionSort, List.mem_filter]
  simp

theorem tickerSorted_sorted (df : List Row) (ticker : String) :
    (tickerSorted df ticker).Sorted byDate :=
  List.sorted_insertionSort byDate _

/-- In a chronologically sorted list, every element's date is at most the
date of the last element. -/
theorem date_le_getLast : ∀ (l : List Row), l.Sorted byDate → ∀ x ∈ l, ∀ (h : l ≠ []),
    x.date ≤ (l.getLast h).date
  | [], _, x, hx, _ => by cases hx
  | [a], _, x, hx, _ => by
      rcases List.mem_singleton.mp hx with rfl
      exact le_refl _
  | a :: b :: tl, hs, x, hx, h => by
      have htl : (b :: tl) ≠ [] := List.cons_ne_nil _ _
      rw [List.getLast_cons htl]
      rcases List.mem_cons.mp hx with rfl | hx2
      · exact (List.sorted_cons.mp hs).1 _ (List.getLast_mem htl)
      · exact date_le_getLast (b :: tl) (List.sorted_cons.mp hs).2 x hx2 htl

/-- A nonempty list of rationals has its optional minimum at most its optional
maximum. -/
theorem min?_le_max?_rat {l : List ℚ} {hq lq : ℚ}
    (hmax : l.max? = some hq) (hmin : l.min? = some lq) : lq ≤ hq := by
  have hmem : hq ∈ l := List.max?_mem (fun a b => max_choice a b) hmax
  exact (List.le_min?_iff (fun _ _ _ => le_min_iff) hmin).mp le_rfl hq hmem

theorem sampleVar_nonneg (l : List ℚ) (h : 2 ≤ l.length) : 0 ≤ sampleVar l := by
  unfold sampleVar
  apply div_nonneg
  · apply List.sum_nonneg
    intro x hx
    rcases List.mem_map.mp hx with ⟨y, _, rfl⟩
    exact mul_self_nonneg _
  · have h2 : (2 : ℚ) ≤ (l.length : ℚ) := by exact_mod_cast h
    linarith

/-- Inversion principle for `calculate_stock_stats`: a `some` result exposes
the anchor row and every field's defining expression. -/
theorem calculate_stock_stats_inv {df : List Row} {ticker : String}
    {current_date : ℤ} {r : RiskStats}
    (h : calculate_stock_stats df ticker current_date = some r) :
    ∃ anchor, (currentRows df ticker current_date).getLast? = some anchor ∧
      r.current_price = anchor.adjClose ∧
      r.one_year_return = ((trailingYearWindow df ticker current_date).head?.map fun f =>
        (anchor.adjClose / f.adjClose - 1) * 100) ∧
      r.volatility = volatilityOf (pctChanges ((tickerSorted df ticker).map Row.adjClose)) ∧
      r.week_high = ((trailingYearWindow df ticker current_date).map Row.adjClose).max? ∧
      r.week_low = ((trailingYearWindow df ticker current_date).map Row.adjClose).min? ∧
      r.vs_52w_high = (distances anchor.adjClose
          (((trailingYearWindow df ticker current_date).map Row.adjClose).max?)
          (((trailingYearWindow df ticker current_date).map Row.adjClose).min?)).1 ∧
      r.vs_52w_low = (distances anchor.adjClose
          (((trailingYearWindow df ticker current_date).map Row.adjClose).max?)
          (((trailingYearWindow df ticker current_date).map Row.adjClose).min?)).2 := by
  rcases Option.map_eq_some'.mp h with ⟨anchor, ha, hr⟩
  subst hr
  exact ⟨anchor, ha, rfl, rfl, rfl, rfl, rfl, rfl, rfl⟩

/-! Claim theorems. -/

/-- Claim C1 (corrected): the trailing-year window `calculate_stock_stats` uses
for the 52-week extremes and the one-year return contains exactly the
observations of the ticker's series with `referenceDate - 365 ≤ date`; the
filter imposes no upper bound, so observations dated after the reference date
are included rather than excluded. -/
theorem C1_trailing_window_membership (df : List Row) (ticker : String)
    (current_date : ℤ) (r : Row) :
    r ∈ trailingYearWindow df ticker current_date ↔
      r ∈ df ∧ r.ticker = ticker ∧ current_date - 365 ≤ r.date := by
  unfold trailingYearWindow
  rw [List.mem_filter, mem_tickerSorted]
  simp [and_assoc]

/-- Claim C1 counterexample: with rows dated 0 and 10 and reference date 0,
the row dated 10 (strictly after the reference date) is inside the window the
code uses, is outside the claimed window `[-365, 0]`, and its price 200 becomes
the 52-week high even though the claimed window only contains the price 100. -/
theorem C1_counterexample :
    (⟨"A", 10, 200⟩ : Row) ∈ trailingYearWindow [⟨"A", 0, 100⟩, ⟨"A", 10, 200⟩] "A" 0 ∧
    (⟨"A", 10, 200⟩ : Row) ∉ specTrailingWindow [⟨"A", 0, 100⟩, ⟨"A", 10, 200⟩] "A" 0 ∧
    (calculate_stock_stats [⟨"A", 0, 100⟩, ⟨"A", 10, 200⟩] "A" 0).map RiskStats.week_high =
      some (some 200) := by decide

/-- Claim C2 counterexample: a series with two observations has exactly one
period-over-period return (fewer than 2), yet volatility is the NaN of
`std(ddof=1)` on a single element — present in the result, not absent. -/
theorem C2_counterexample :
    (calculate_stock_stats [⟨"A", 0, 100⟩, ⟨"A", 1, 110⟩] "A" 1).map RiskStats.volatility =
      some Vol.nan ∧ Vol.nan ≠ Vol.absent := by decide

/-- Claim C2 (corrected): volatility is absent exactly when the series yields
no period-over-period return at all (fewer than 2 observations); with exactly
one return it is present as NaN; with two or more returns it is a value whose
square is a nonnegative rational, so the volatility — the nonnegative square
root of that square — is defined and ≥ 0. -/
theorem C2_volatility_cases (df : List Row) (ticker : String) (current_date : ℤ)
    (r : RiskStats) (h : calculate_stock_stats df ticker current_date = some r) :
    ((pctChanges ((tickerSorted df ticker).map Row.adjClose)).length = 0 →
      r.volatility = Vol.absent) ∧
    ((pctChanges ((tickerSorted df ticker).map Row.adjClose)).length = 1 →
      r.volatility = Vol.nan) ∧
    (2 ≤ (pctChanges ((tickerSorted df ticker).map Row.adjClose)).length →
      ∃ sq, r.volatility = Vol.val sq ∧ 0 ≤ sq) := by
  rcases calculate_stock_stats_inv h with ⟨anchor, ha, hcp, hoyr, hvol, hwh, hwl, hvh, hvl⟩
  rw [hvol]
  set L := pctChanges ((tickerSorted df ticker).map Row.adjClose) with hL
  refine ⟨?_, ?_, ?_⟩
  · intro hlen
    simp [volatilityOf, hlen]
  · intro hlen
    simp [volatilityOf, sampleStdSq, hlen]
  · intro hlen
    have h1 : 0 < L.length := by omega
    have h2 : ¬ L.length < 2 := by omega
    refine ⟨252 * 10000 * sampleVar L, ?_, ?_⟩
    · simp [volatilityOf, sampleStdSq, h1, h2]
    · exact mul_nonneg (by norm_num) (sampleVar_nonneg L hlen)

/-- Witness for C2_volatility_cases: the three-row example series has two
returns and its volatility square 255150 is nonnegative. -/
theorem C2_volatility_cases_witness :
    ∃ sq, ({ current_price := 90, one_year_return := some (-10),
             volatility := Vol.val 255150, week_high := some 120, week_low := some 90,
             vs_52w_high := some (-25), vs_52w_low := some 0 } : RiskStats).volatility
        = Vol.val sq ∧ 0 ≤ sq :=
  (C2_volatility_cases [⟨"A", 0, 100⟩, ⟨"A", 151, 120⟩, ⟨"A", 365, 90⟩] "A" 365
    { current_price := 90, one_year_return := some (-10),
      volatility := Vol.val 255150, week_high := some 120, week_low := some 90,
      vs_52w_high := some (-25), vs_52w_low := some 0 }
    (by decide)).2.2 (by decide)

/-- Claim C3 counterexample: on the spec's example series the code returns a
one-year return of −10 (the earliest in-window price is the 100 of day 0,
2023-01-01, and (90/100 − 1)·100 = −10), not the −25 the claim states. -/
theorem C3_counterexample :
    (calculate_stock_stats [⟨"A", 0, 100⟩, ⟨"A", 151, 120⟩, ⟨"A", 365, 90⟩] "A" 365).map
        RiskStats.one_year_return = some (some (-10)) ∧ ((-10 : ℚ) ≠ -25) := by decide

/-- Claim C3 (corrected): series (2023-01-01, 100), (2023-06-01, 120),
(2024-01-01, 90) — encoded as days 0, 151 and 365 since 2023-01-01 — with
reference date 2024-01-01 gives currentPrice 90, oneYearReturn −10 (not −25:
−25 is the distance from the high, not the one-year return), week52High 120,
week52Low 90, distanceFromHigh −25 and distanceFromLow 0.  The volatility slot
carries the square of the annualized volatility of the two returns. -/
theorem C3_example_stats :
    calculate_stock_stats [⟨"A", 0, 100⟩, ⟨"A", 151, 120⟩, ⟨"A", 365, 90⟩] "A" 365 =
      some { current_price := 90, one_year_return := some (-10),
             volatility := Vol.val 255150, week_high := some 120, week_low := some 90,
             vs_52w_high := some (-25), vs_52w_low := some 0 } := by decide

/-- Claim C4: a non-empty window result is exactly the rows of the ticker
with `start ≤ date ≤ end` (as a permutation, i.e. the same multiset),
chronologically sorted, and the percent change is `(last/first − 1)·100`
with first and last taken from the sorted order. -/
theorem C4_window_sorted_percent (df : List Row) (ticker : String)
    (ps pe : ℤ) (obs : List Row) (pct : Option ℚ)
    (h : get_stock_data_for_period df ticker ps pe = (some obs, pct)) :
    obs.Perm ((df.filter fun r => decide (r.ticker = ticker)).filter fun r =>
        decide (ps ≤ r.date) && decide (r.date ≤ pe)) ∧
    obs.Sorted byDate ∧
    ∃ f l, obs.head? = some f ∧ obs.getLast? = some l ∧
      pct = some ((l.adjClose / f.adjClose - 1) * 100) := by
  simp only [get_stock_data_for_period] at h
  by_cases hemp : ((df.filter fun r => decide (r.ticker = ticker)).filter fun r =>
      decide (ps ≤ r.date) && decide (r.date ≤ pe)).isEmpty
  · rw [if_pos hemp] at h
    simp at h
  · rw [if_neg hemp] at h
    simp only [Prod.mk.injEq, Option.some.injEq] at h
    obtain ⟨h1, h2⟩ := h
    subst h1
    subst h2
    have hPne : ((df.filter fun r => decide (r.ticker = ticker)).filter fun r =>
        decide (ps ≤ r.date) && decide (r.date ≤ pe)) ≠ [] := by
      simpa [List.isEmpty_iff] using hemp
    have hSne : List.insertionSort byDate ((df.filter fun r => decide (r.ticker = ticker)).filter
        fun r => decide (ps ≤ r.date) && decide (r.date ≤ pe)) ≠ [] := by
      intro hnil
      exact hPne (((List.perm_insertionSort byDate _).symm.trans (hnil ▸ List.Perm.refl _)).eq_nil)
    refine ⟨List.perm_insertionSort byDate _, List.sorted_insertionSort byDate _,
      _, _, List.head?_eq_head hSne, List.getLast?_eq_getLast _ hSne, ?_⟩
    rw [List.headD_eq_head?_getD, List.getLastD_eq_getLast?,
      List.head?_eq_head hSne, List.getLast?_eq_getLast _ hSne]
    rfl

/-- Witness for C4_window_sorted_percent: an unsorted two-row series in the
window `[2, 9]` comes back sorted with percent change `(50/80 − 1)·100`. -/
theorem C4_window_sorted_percent_witness :
    ([⟨"B", 2, 80⟩, ⟨"B", 5, 50⟩] : List Row).Perm
        ((([⟨"B", 5, 50⟩, ⟨"B", 2, 80⟩] : List Row).filter fun r =>
          decide (r.ticker = "B")).filter fun r =>
            decide ((2 : ℤ) ≤ r.date) && decide (r.date ≤ (9 : ℤ))) ∧
    ([⟨"B", 2, 80⟩, ⟨"B", 5, 50⟩] : List Row).Sorted byDate ∧
    ∃ f l, ([⟨"B", 2, 80⟩, ⟨"B", 5, 50⟩] : List Row).head? = some f ∧
      ([⟨"B", 2, 80⟩, ⟨"B", 5, 50⟩] : List Row).getLast? = some l ∧
      some (-75 / 2 : ℚ) = some ((l.adjClose / f.adjClose - 1) * 100) :=
  C4_window_sorted_percent [⟨"B", 5, 50⟩, ⟨"B", 2, 80⟩] "B" 2 9
    [⟨"B", 2, 80⟩, ⟨"B", 5, 50⟩] (some (-75 / 2)) (by decide)

/-- Claim C5: whenever `start > end`, and more generally whenever no
observation falls inside `[start, end]`, the windower returns the empty
result `(None, None)` — in particular the percent change is absent, which is
distinguishable from a present zero.  The operation is a total function, so
no input raises an error. -/
theorem C5_empty_window (df : List Row) (ticker : String) (ps pe : ℤ)
    (h : pe < ps ∨ ((df.filter fun r => decide (r.ticker = ticker)).filter fun r =>
        decide (ps ≤ r.date) && decide (r.date ≤ pe)) = []) :
    get_stock_data_for_period df ticker ps pe = (none, none) ∧
      (none : Option ℚ) ≠ some 0 := by
  have hP : ((df.filter fun r => decide (r.ticker = ticker)).filter fun r =>
      decide (ps ≤ r.date) && decide (r.date ≤ pe)) = [] := by
    rcases h with hlt | hnil
    · apply List.filter_eq_nil_iff.mpr
      intro a ha
      simp only [Bool.and_eq_true, decide_eq_true_eq, not_and]
      intro h1 h2
      omega
    · exact hnil
  refine ⟨?_, by simp⟩
  simp only [get_stock_data_for_period]
  rw [hP]
  rfl

/-- Witness for C5_empty_window at a start date after the end date. -/
theorem C5_empty_window_witness :
    get_stock_data_for_period [⟨"A", 5, 50⟩] "A" 9 2 = (none, none) ∧
      (none : Option ℚ) ≠ some 0 :=
  C5_empty_window [⟨"A", 5, 50⟩] "A" 9 2 (Or.inl (by decide))

/-- Claim C6: when exactly one observation (with nonzero adjusted close, so
that the float division is exact) falls inside `[start, end]`, the windower
returns that single row and a percent change of 0 — present, not absent. -/
theorem C6_single_row (df : List Row) (ticker : String) (ps pe : ℤ) (x : Row)
    (hx : ((df.filter fun r => decide (r.ticker = ticker)).filter fun r =>
        decide (ps ≤ r.date) && decide (r.date ≤ pe)) = [x])
    (hnz : x.adjClose ≠ 0) :
    get_stock_data_for_period df ticker ps pe = (some [x], some 0) := by
  simp only [get_stock_data_for_period]
  rw [hx]
  simp [List.insertionSort, List.orderedInsert, div_self hnz]

/-- Witness for C6_single_row on a one-row series windowed to its own date. -/
theorem C6_single_row_witness :
    get_stock_data_for_period [⟨"C", 4, 25⟩] "C" 4 4 = (some [⟨"C", 4, 25⟩], some 0) :=
  C6_single_row [⟨"C", 4, 25⟩] "C" 4 4 ⟨"C", 4, 25⟩ (by decide) (by decide)

/-- Claim C7: whenever both distances are present,
`distanceFromHigh = (currentPrice/week52High − 1)·100` and
`distanceFromLow = (currentPrice/week52Low − 1)·100`; and when the extremes are
positive (prices, per the data model) and `currentPrice` lies within
`[week52Low, week52High]`, the former is ≤ 0 and the latter ≥ 0. -/
theorem C7_distance_formulas (df : List Row) (ticker : String) (current_date : ℤ)
    (r : RiskStats) (dh dl : ℚ)
    (h : calculate_stock_stats df ticker current_date = some r)
    (hdh : r.vs_52w_high = some dh) (hdl : r.vs_52w_low = some dl) :
    ∃ hq lq, r.week_high = some hq ∧ r.week_low = some lq ∧
      dh = (r.current_price / hq - 1) * 100 ∧
      dl = (r.current_price / lq - 1) * 100 ∧
      (0 < lq → lq ≤ r.current_price → r.current_price ≤ hq → dh ≤ 0 ∧ 0 ≤ dl) := by
  rcases calculate_stock_stats_inv h with ⟨anchor, ha, hcp, hoyr, hvol, hwh, hwl, hvh, hvl⟩
  rw [hvh] at hdh
  rw [hvl] at hdl
  cases hmax : ((trailingYearWindow df ticker current_date).map Row.adjClose).max? with
  | none =>
    rw [hmax] at hdh
    simp [distances] at hdh
  | some hq =>
    cases hmin : ((trailingYearWindow df ticker current_date).map Row.adjClose).min? with
    | none =>
      rw [hmax, hmin] at hdh
      simp [distances] at hdh
    | some lq =>
      rw [hmax, hmin] at hdh hdl
      by_cases hz : hq ≠ 0 ∧ lq ≠ 0
      · simp only [distances, if_pos hz, Option.some.injEq] at hdh hdl
        refine ⟨hq, lq, by rw [hwh, hmax], by rw [hwl, hmin], ?_, ?_, ?_⟩
        · rw [hcp, ← hdh]
        · rw [hcp, ← hdl]
        · intro hl0 hlcp hcph
          rw [hcp] at hlcp hcph
          have hh0 : 0 < hq := lt_of_lt_of_le hl0 (le_trans hlcp hcph)
          constructor
          · have hq1 : anchor.adjClose / hq ≤ 1 := (div_le_one hh0).mpr hcph
            rw [← hdh]
            nlinarith
          · have hq2 : 1 ≤ anchor.adjClose / lq := (one_le_div hl0).mpr hlcp
            rw [← hdl]
            nlinarith
      · simp only [distances, if_neg hz] at hdh
        cases hdh

/-- Witness for C7_distance_formulas: a two-row series whose current price 5
sits between the extremes 5 and 10, with distances −50 and 0. -/
theorem C7_distance_formulas_witness :
    ∃ hq lq,
      ({ current_price := 5, one_year_return := some (-50), volatility := Vol.nan,
         week_high := some 10, week_low := some 5,
         vs_52w_high := some (-50), vs_52w_low := some 0 } : RiskStats).week_high = some hq ∧
      ({ current_price := 5, one_year_return := some (-50), volatility := Vol.nan,
         week_high := some 10, week_low := some 5,
         vs_52w_high := some (-50), vs_52w_low := some 0 } : RiskStats).week_low = some lq ∧
      (-50 : ℚ) =
        (({ current_price := 5, one_year_return := some (-50), volatility := Vol.nan,
            week_high := some 10, week_low := some 5,
            vs_52w_high := some (-50), vs_52w_low := some 0 } : RiskStats).current_price / hq
          - 1) * 100 ∧
      (0 : ℚ) =
        (({ current_price := 5, one_year_return := some (-50), volatility := Vol.nan,
            week_high := some 10, week_low := some 5,
            vs_52w_high := some (-50), vs_52w_low := some 0 } : RiskStats).current_price / lq
          - 1) * 100 ∧
      (0 < lq →
        lq ≤ ({ current_price := 5, one_year_return := some (-50), volatility := Vol.nan,
                week_high := some 10, week_low := some 5,
                vs_52w_high := some (-50), vs_52w_low := some 0 } : RiskStats).current_price →
        ({ current_price := 5, one_year_return := some (-50), volatility := Vol.nan,
           week_high := some 10, week_low := some 5,
           vs_52w_high := some (-50), vs_52w_low := some 0 } : RiskStats).current_price ≤ hq →
        (-50 : ℚ) ≤ 0 ∧ (0 : ℚ) ≤ 0) :=
  C7_distance_formulas [⟨"D", 0, 10⟩, ⟨"D", 3, 5⟩] "D" 3
    { current_price := 5, one_year_return := some (-50), volatility := Vol.nan,
      week_high := some 10, week_low := some 5,
      vs_52w_high := some (-50), vs_52w_low := some 0 }
    (-50) 0 (by decide) (by decide) (by decide)

/-- Claim C8: whenever both 52-week extremes are present in the result,
`week52High ≥ week52Low` — they are the max and min of the same nonempty
trailing window. -/
theorem C8_week_extremes (df : List Row) (ticker : String) (current_date : ℤ)
    (r : RiskStats) (hq lq : ℚ)
    (h : calculate_stock_stats df ticker current_date = some r)
    (hh : r.week_high = some hq) (hl : r.week_low = some lq) : lq ≤ hq := by
  rcases calculate_stock_stats_inv h with ⟨anchor, ha, hcp, hoyr, hvol, hwh, hwl, hvh, hvl⟩
  rw [hwh] at hh
  rw [hwl] at hl
  exact min?_le_max?_rat hh hl

/-- Witness for C8_week_extremes on a two-row series with extremes 10 ≥ 5. -/
theorem C8_week_extremes_witness : (5 : ℚ) ≤ 10 :=
  C8_week_extremes [⟨"E", 0, 10⟩, ⟨"E", 3, 5⟩] "E" 3
    { current_price := 5, one_year_return := some (-50), volatility := Vol.nan,
      week_high := some 10, week_low := some 5,
      vs_52w_high := some (-50), vs_52w_low := some 0 }
    10 5 (by decide) (by decide) (by decide)

/-- Claim C9: the current price is the adjusted close of the latest
observation dated at or before the reference date (which need not itself
appear in the series); if no observation is dated at or before the reference
date the result is the all-absent stats object.  The embedding is a total
function, so no input raises an error. -/
theorem C9_current_anchor (df : List Row) (ticker : String) (current_date : ℤ) :
    ((∀ o ∈ df, o.ticker = ticker → current_date < o.date) →
      calculate_stock_stats df ticker current_date = none) ∧
    ∀ r, calculate_stock_stats df ticker current_date = some r →
      ∃ o, o ∈ df ∧ o.ticker = ticker ∧ o.date ≤ current_date ∧
        r.current_price = o.adjClose ∧
        ∀ o' ∈ df, o'.ticker = ticker → o'.date ≤ current_date → o'.date ≤ o.date := by
  constructor
  · intro hnone
    have hcr : currentRows df ticker current_date = [] := by
      unfold currentRows
      apply List.filter_eq_nil_iff.mpr
      intro a ha
      rcases mem_tickerSorted.mp ha with ⟨hadf, hat⟩
      simp only [decide_eq_true_eq]
      have := hnone a hadf hat
      omega
    unfold calculate_stock_stats
    rw [hcr]
    rfl
  · intro r h
    rcases calculate_stock_stats_inv h with ⟨anchor, ha, hcp, -, -, -, -, -, -⟩
    have hcrne : currentRows df ticker current_date ≠ [] := by
      intro hnil
      rw [hnil] at ha
      cases ha
    have hganchor : (currentRows df ticker current_date).getLast hcrne = anchor :=
      Option.some.inj ((List.getLast?_eq_getLast _ hcrne).symm.trans ha)
    have hmem : anchor ∈ currentRows df ticker current_date := by
      rw [← hganchor]
      exact List.getLast_mem hcrne
    have hmem2 := hmem
    unfold currentRows at hmem2
    rcases List.mem_filter.mp hmem2 with ⟨hts, hdec⟩
    rcases mem_tickerSorted.mp hts with ⟨hdf, ht⟩
    have hsorted : (currentRows df ticker current_date).Sorted byDate :=
      List.Pairwise.filter _ (tickerSorted_sorted df ticker)
    refine ⟨anchor, hdf, ht, by simpa using hdec, hcp, ?_⟩
    intro o' ho' hot' hod'
    have ho'mem : o' ∈ currentRows df ticker current_date := by
      unfold currentRows
      exact List.mem_filter.mpr ⟨mem_tickerSorted.mpr ⟨ho', hot'⟩, by simpa using hod'⟩
    have := date_le_getLast _ hsorted o' ho'mem hcrne
    rw [hganchor] at this
    exact this

/-- Witness for C9_current_anchor: reference date 5 does not occur in the
one-row series, and the day-0 row anchors the current price 100. -/
theorem C9_current_anchor_witness :
    ∃ o, o ∈ ([⟨"A", 0, 100⟩] : List Row) ∧ o.ticker = "A" ∧ o.date ≤ 5 ∧
      ({ current_price := 100, one_year_return := some 0, volatility := Vol.absent,
         week_high := some 100, week_low := some 100,
         vs_52w_high := some 0, vs_52w_low := some 0 } : RiskStats).current_price
        = o.adjClose ∧
      ∀ o' ∈ ([⟨"A", 0, 100⟩] : List Row), o'.ticker = "A" → o'.date ≤ 5 →
        o'.date ≤ o.date :=
  (C9_current_anchor [⟨"A", 0, 100⟩] "A" 5).2
    { current_price := 100, one_year_return := some 0, volatility := Vol.absent,
      week_high := some 100, week_low := some 100,
      vs_52w_high := some 0, vs_52w_low := some 0 }
    (by decide)

/-- Claim C10: if both extremes are present but either equals 0 (a zero
adjusted close inside the trailing window), Python truthiness at line 87 makes
both distances absent even though the current price and both extremes are
present. -/
theorem C10_zero_extreme_drops_distances (df : List Row) (ticker : String)
    (current_date : ℤ) (r : RiskStats) (hq lq : ℚ)
    (h : calculate_stock_stats df ticker current_date = some r)
    (hh : r.week_high = some hq) (hl : r.week_low = some lq)
    (hz : hq = 0 ∨ lq = 0) :
    r.vs_52w_high = none ∧ r.vs_52w_low = none := by
  rcases calculate_stock_stats_inv h with ⟨anchor, ha, hcp, hoyr, hvol, hwh, hwl, hvh, hvl⟩
  rw [hwh] at hh
  rw [hwl] at hl
  rw [hvh, hvl, hh, hl]
  have hnz : ¬(hq ≠ 0 ∧ lq ≠ 0) := by tauto
  simp [distances, hnz]

/-- Witness for C10_zero_extreme_drops_distances: a window containing a zero
adjusted close has week52Low = 0, and both distances are dropped while the
current price and both extremes are present. -/
theorem C10_zero_extreme_witness :
    ({ current_price := 0, one_year_return := some (-100), volatility := Vol.nan,
       week_high := some 100, week_low := some 0,
       vs_52w_high := none, vs_52w_low := none } : RiskStats).vs_52w_high = none ∧
    ({ current_price := 0, one_year_return := some (-100), volatility := Vol.nan,
       week_high := some 100, week_low := some 0,
       vs_52w_high := none, vs_52w_low := none } : RiskStats).vs_52w_low = none :=
  C10_zero_extreme_drops_distances [⟨"A", 0, 100⟩, ⟨"A", 5, 0⟩] "A" 5
    { current_price := 0, one_year_return := some (-100), volatility := Vol.nan,
      week_high := some 100, week_low := some 0,
      vs_52w_high := none, vs_52w_low := none }
    100 0 (by decide) (by decide) (by decide) (Or.inr rfl)
